import Mathlib

/-!
Shallow embedding of `github_avatars_gallery_generator/main.py` and
verification of its specification claims.

The program is a fetch → transform → layout → serialize pipeline:
it retrieves the contributor list of a GitHub repository across pages,
masks each avatar to a circle, lays the avatars out on a row-major grid
and serializes a single SVG document.  Network requests are modelled by
explicit "worlds": a schedule saying which request raises a transport
error, so that the retry behaviour of the code becomes a pure function
of the schedule.
-/

namespace Gallery

/-! ## Directory Fetcher (main.py, `get_all_contributor_avatars_for_repo`) -/

/-- One raw contributor record as served by the remote directory.
Anonymous contributors carry no `login` (no stable identifier). -/
structure RawContributor where
  login : Option String
  avatar_url : String
  html_url : String
  contributions : Nat
deriving DecidableEq, Repr

/-- Modelled from the spec: the directory endpoint.  The fetcher requests
pages without the anonymous-inclusion parameter, so — per the spec and the
function docstring ("ignore anonymous users") — each served page excludes
entries lacking a stable identifier. -/
def servePage (page : List RawContributor) : List RawContributor :=
  page.filter (fun c => c.login.isSome)

/-- The complete listing a fully successful fetch returns: the served pages
concatenated in request order (`all_contributors.extend(response.json())`). -/
def directoryListing (pages : List (List RawContributor)) : List RawContributor :=
  (pages.map servePage).flatten

/-- Record one more request made to page `i` in the request counters. -/
def bumpCount (cnt : Nat → Nat) (i : Nat) : Nat → Nat :=
  fun j => if j = i then cnt i + 1 else cnt j

/-- One whole attempt of the fetch body (main.py lines 71–79): request the
pages in order, following `next` links, concatenating the served results.
`fails i t` says whether the `t`-th request ever made to page `i` raises a
transport error; `cnt` counts the requests made to each page so far and is
threaded through so that later retry attempts see a different schedule
position.  Returns the result together with the updated counters. -/
def fetchOnce (fails : Nat → Nat → Bool) :
    (Nat → Nat) → Nat → List (List RawContributor) →
      Except Unit (List RawContributor) × (Nat → Nat)
  | cnt, _, [] => (Except.ok [], cnt)
  | cnt, i, page :: rest =>
    let t := cnt i
    let cnt2 := bumpCount cnt i
    if fails i t then (Except.error (), cnt2)
    else
      match fetchOnce fails cnt2 (i + 1) rest with
      | (Except.ok l, c) => (Except.ok (servePage page ++ l), c)
      | (Except.error e, c) => (Except.error e, c)

/-- The tenacity `@retry(stop=stop_after_attempt(3))` wrapper around the whole
fetch body: on a raised error the entire multi-page fetch is re-run from the
first page, up to the given number of total attempts. -/
def fetchRetry (fails : Nat → Nat → Bool) (pages : List (List RawContributor)) :
    Nat → (Nat → Nat) → Except Unit (List RawContributor)
  | 0, _ => Except.error ()
  | Nat.succ n, cnt =>
    match fetchOnce fails cnt 0 pages with
    | (Except.ok l, _) => Except.ok l
    | (Except.error e, c) =>
      match n with
      | 0 => Except.error e
      | Nat.succ _ => fetchRetry fails pages n c

/-- main.py lines 67–79: `get_all_contributor_avatars_for_repo`, a 3-attempt
retry of the whole paged fetch, starting with fresh request counters. -/
def get_all_contributor_avatars_for_repo (fails : Nat → Nat → Bool)
    (pages : List (List RawContributor)) : Except Unit (List RawContributor) :=
  fetchRetry fails pages 3 (fun _ => 0)

/-! ## Generic retry and the avatar download (main.py, `url_to_image`) -/

/-- `retryGo op k n`: run `op k`; on error retry with the next attempt index,
`n` more times; the last error is surfaced. -/
def retryGo {E A : Type} (op : Nat → Except E A) : Nat → Nat → Except E A
  | k, 0 => op k
  | k, Nat.succ n =>
    match op k with
    | Except.ok a => Except.ok a
    | Except.error _ => retryGo op (k + 1) n

/-- tenacity `stop_after_attempt(attempts)`: at most `attempts` total tries. -/
def retryCall {E A : Type} (attempts : Nat) (op : Nat → Except E A) : Except E A :=
  retryGo op 0 (attempts - 1)

/-- Outcome of one HTTP GET: either a raised transport error, or a response
with a status code and a body. -/
inductive ReqOutcome where
  | netError : ReqOutcome
  | response (status : Nat) (body : String) : ReqOutcome
deriving DecidableEq, Repr

/-- One attempt of the body of `url_to_image` (main.py lines 87–89):
`requests.get` raises on a transport error, and `response.raise_for_status()`
raises on a non-success (4xx/5xx) status; otherwise the response is
returned. -/
def singleRequest (o : ReqOutcome) : Except Unit (Nat × String) :=
  match o with
  | ReqOutcome.netError => Except.error ()
  | ReqOutcome.response s b => if 400 ≤ s then Except.error () else Except.ok (s, b)

/-- main.py lines 82–89: `url_to_image`, the avatar download with
`@retry(stop=stop_after_attempt(3))`; `world k` is the outcome of the
`k`-th attempt. -/
def url_to_image (world : Nat → ReqOutcome) : Except Unit (Nat × String) :=
  retryCall 3 (fun k => singleRequest (world k))

/-! ## Layout Engine (main.py lines 151–189) -/

/-- The cursor state of the layout loop: `x, y, ncol, nrow = 2, 2, 1, 1`. -/
structure LayoutState where
  x : Nat
  y : Nat
  ncol : Nat
  nrow : Nat
deriving DecidableEq, Repr

/-- main.py line 151: the initial cursor. -/
def initLayout : LayoutState := ⟨2, 2, 1, 1⟩

/-- One placement, as emitted for one contributor: the (x, y) written into
the element template and the row/column counters in force there. -/
structure Placement where
  x : Nat
  y : Nat
  row : Nat
  col : Nat
deriving DecidableEq, Repr

/-- One iteration of the layout bookkeeping (main.py lines 176–189): the
element is emitted at the current cursor; then, if `ncol >= num_per_row`,
the cursor wraps to the next row, else it advances along the row. -/
def placeStep (avatar_size num_per_row : Nat) (s : LayoutState) :
    Placement × LayoutState :=
  (⟨s.x, s.y, s.nrow, s.ncol⟩,
    if s.ncol ≥ num_per_row then
      { x := 2, y := s.y + (avatar_size + 2), ncol := 1, nrow := s.nrow + 1 }
    else
      { s with x := s.x + (avatar_size + 2), ncol := s.ncol + 1 })

/-- Run the layout loop for `n` contributors from state `s`, collecting the
emitted placements and the final cursor. -/
def layoutRun (avatar_size num_per_row : Nat) :
    Nat → LayoutState → List Placement × LayoutState
  | 0, s => ([], s)
  | Nat.succ n, s =>
    let ps := placeStep avatar_size num_per_row s
    let rest := layoutRun avatar_size num_per_row n ps.2
    (ps.1 :: rest.1, rest.2)

/-- The placements emitted for `n` contributors from the initial cursor. -/
def placements (avatar_size num_per_row n : Nat) : List Placement :=
  (layoutRun avatar_size num_per_row n initLayout).1

/-- The row counter after the whole loop (`nrow` at main.py line 193). -/
def finalRow (avatar_size num_per_row n : Nat) : Nat :=
  (layoutRun avatar_size num_per_row n initLayout).2.nrow

/-- main.py line 192: `_width = 2 + (args.avatar_size + 2) * args.num_per_row`. -/
def svgWidth (avatar_size num_per_row : Nat) : Nat :=
  2 + (avatar_size + 2) * num_per_row

/-- main.py line 193: `_height = 2 + (2 + args.avatar_size) * nrow`. -/
def svgHeight (avatar_size num_per_row n : Nat) : Nat :=
  2 + (2 + avatar_size) * finalRow avatar_size num_per_row n

/-! ## Document Composer (templates and the main loop, main.py lines 151–198) -/

/-- One rendered `ELEMENT_TEMPLATE` instance: a clickable, positioned,
inline-embedded image. -/
structure Fragment where
  html_url : String
  x : Nat
  y : Nat
  avatar_size : Nat
  avatar_data : String
deriving DecidableEq, Repr

/-- The final `SVG_TEMPLATE` document: declared canvas bounds plus the
accumulated fragments in order. -/
structure Document where
  width : Nat
  height : Nat
  fragments : List Fragment
deriving DecidableEq, Repr

/-- The body of the main loop for a list of already-transformed items
`(html_url, avatar_data)`: emit one fragment per item at the current cursor
and advance the cursor. -/
def buildFragments (avatar_size num_per_row : Nat) :
    List (String × String) → LayoutState → List Fragment × LayoutState
  | [], s => ([], s)
  | item :: rest, s =>
    let ps := placeStep avatar_size num_per_row s
    let built := buildFragments avatar_size num_per_row rest ps.2
    (⟨item.1, ps.1.x, ps.1.y, avatar_size, item.2⟩ :: built.1, built.2)

/-- main.py lines 151–198: the whole composition for a listing of
transformed items — fragments accumulated in order inside an envelope whose
width is fixed up front and whose height uses the final row counter. -/
def mainDocument (avatar_size num_per_row : Nat)
    (items : List (String × String)) : Document :=
  let built := buildFragments avatar_size num_per_row items initLayout
  ⟨svgWidth avatar_size num_per_row, 2 + (2 + avatar_size) * built.2.nrow, built.1⟩

/-! ## Avatar Transformer (main.py, `crop_to_circle` and the loop body) -/

/-- One RGBA pixel (channel values 0–255). -/
structure RGBA where
  r : Nat
  g : Nat
  b : Nat
  a : Nat
deriving DecidableEq, Repr

/-- A raster image: dimensions plus a pixel lookup `pix x y` (meaningful for
`x < width`, `y < height`). -/
structure Img where
  width : Nat
  height : Nat
  pix : Nat → Nat → RGBA

/-- Whether the center of pixel `(px, py)` of the 3×-oversized canvas lies in
the ellipse with bounding box `(0, 0, 3w, 3h)` — the
`ImageDraw.Draw(mask).ellipse((0, 0) + bigsize, fill=255)` call.  The ellipse
has center `(3w/2, 3h/2)` and radii `(3w/2, 3h/2)`; with the pixel center at
`(px + 1/2, py + 1/2)`, everything is scaled by 2 to stay integral. -/
def insideEllipse (w h px py : Nat) : Bool :=
  let dx : Int := 2 * px + 1 - 3 * w
  let dy : Int := 2 * py + 1 - 3 * h
  let rx : Int := 3 * w
  let ry : Int := 3 * h
  dx * dx * (ry * ry) + dy * dy * (rx * rx) ≤ rx * rx * (ry * ry)

/-- The oversized binary mask (`Image.new("L", bigsize, 0)` with the ellipse
filled at 255). -/
def bigMask (w h : Nat) (px py : Nat) : Nat :=
  if insideEllipse w h px py then 255 else 0

/-- Sum of a 3×3 block of band values, the block for target pixel `(x, y)`. -/
def block9Sum (m : Nat → Nat → Nat) (x y : Nat) : Nat :=
  m (3 * x) (3 * y) + m (3 * x + 1) (3 * y) + m (3 * x + 2) (3 * y) +
  m (3 * x) (3 * y + 1) + m (3 * x + 1) (3 * y + 1) + m (3 * x + 2) (3 * y + 1) +
  m (3 * x) (3 * y + 2) + m (3 * x + 1) (3 * y + 2) + m (3 * x + 2) (3 * y + 2)

/-- Round-to-nearest average of 9 samples. -/
def avgRound9 (s : Nat) : Nat := (2 * s + 9) / 18

/-- Modelled from the spec: `mask.resize(im.size, Image.ANTIALIAS)`, the
smooth (area-weighted) downsample of the 3×-oversized mask back to the native
dimensions, modelled as the rounded 3×3 block average. -/
def resizedMask (w h : Nat) (x y : Nat) : Nat :=
  avgRound9 (block9Sum (bigMask w h) x y)

/-- `ImageChops.darker`: the per-pixel minimum of two bands. -/
def darker (m1 m2 : Nat → Nat → Nat) : Nat → Nat → Nat :=
  fun x y => min (m1 x y) (m2 x y)

/-- `im.split()[-1]`: the alpha band of an RGBA image. -/
def alphaChannel (im : Img) : Nat → Nat → Nat :=
  fun x y => (im.pix x y).a

/-- `im.putalpha(mask)`: replace the alpha band, keeping R, G, B. -/
def putalpha (im : Img) (m : Nat → Nat → Nat) : Img :=
  ⟨im.width, im.height, fun x y => { im.pix x y with a := m x y }⟩

/-- main.py lines 97–108: `crop_to_circle` — build the oversized circular
mask, downsample it to the native size, darken it with the existing alpha
band, and install the result as the new alpha band. -/
def crop_to_circle (im : Img) : Img :=
  putalpha im (darker (resizedMask im.width im.height) (alphaChannel im))

/-- main.py lines 160–170: the per-contributor transform.  The downloaded
image is decoded at its native resolution, converted to RGBA and circularly
masked; no resize to the configured avatar size happens — the size argument
only parameterizes downstream placement and display geometry. -/
def transform (im : Img) (_target_size : Nat) : Img :=
  crop_to_circle im

/-- A solid-color, fully opaque square source image of side `n`. -/
def solidSquare (n : Nat) : Img :=
  ⟨n, n, fun _ _ => ⟨180, 90, 45, 255⟩⟩

/-- A small, fully transparent image, used to witness alpha preservation. -/
def clearImg : Img :=
  ⟨4, 4, fun _ _ => ⟨10, 20, 30, 0⟩⟩

/-! ## Concrete inputs for witnesses and counterexamples -/

/-- A contributor with a stable identifier. -/
def c1Alice : RawContributor := ⟨some "alice", "alice.png", "https:gh/alice", 7⟩

/-- An anonymous contributor: no stable identifier. -/
def c1Anon : RawContributor := ⟨none, "anon.png", "https:gh/anon", 3⟩

/-- A second identified contributor. -/
def c1Bob : RawContributor := ⟨some "bob", "bob.png", "https:gh/bob", 1⟩

/-- A two-page directory whose first page carries an anonymous entry. -/
def c1Pages : List (List RawContributor) := [[c1Alice, c1Anon], [c1Bob]]

/-- A transport-failure schedule under which every page request fails on the
first request ever made to that page and succeeds afterwards. -/
def c2Fails (_i t : Nat) : Bool := t == 0

/-- A three-page directory. -/
def c2Pages : List (List RawContributor) := [[c1Alice], [c1Bob], []]

/-- An avatar-download world that raises a transport error on the first two
attempts and returns a successful response on the third. -/
def c7World (k : Nat) : ReqOutcome :=
  if k < 2 then ReqOutcome.netError else ReqOutcome.response 200 "avatar-bytes"

/-! ## Helper lemmas about the Directory Fetcher -/

theorem directoryListing_cons (page : List RawContributor)
    (rest : List (List RawContributor)) :
    directoryListing (page :: rest) = servePage page ++ directoryListing rest := rfl

theorem directoryListing_eq_filter (pages : List (List RawContributor)) :
    directoryListing pages = pages.flatten.filter (fun c => c.login.isSome) := by
  induction pages with
  | nil => rfl
  | cons page rest ih =>
    rw [directoryListing_cons, ih, List.flatten_cons, List.filter_append]
    rfl

theorem countP_login_split (l : List RawContributor) :
    l.countP (fun c => c.login.isSome) + l.countP (fun c => c.login.isNone)
      = l.length := by
  induction l with
  | nil => rfl
  | cons c rest ih =>
    rw [List.countP_cons, List.countP_cons, List.length_cons]
    cases hc : c.login <;> simp [hc] <;> omega

theorem fetchOnce_ok_eq (fails : Nat → Nat → Bool) :
    ∀ (pages : List (List RawContributor)) (cnt : Nat → Nat) (i : Nat)
      (l : List RawContributor) (c : Nat → Nat),
      fetchOnce fails cnt i pages = (Except.ok l, c) →
        l = directoryListing pages := by
  intro pages
  induction pages with
  | nil =>
    intro cnt i l c h
    rw [fetchOnce] at h
    simp only [Prod.mk.injEq, Except.ok.injEq] at h
    exact h.1.symm
  | cons page rest ih =>
    intro cnt i l c h
    rw [fetchOnce] at h
    by_cases hf : fails i (cnt i) = true
    · simp only [hf, if_true] at h
      simp at h
    · simp only [hf] at h
      simp only [Bool.false_eq_true, if_false] at h
      rcases h2 : fetchOnce fails (bumpCount cnt i) (i + 1) rest with ⟨res, c2⟩
      rw [h2] at h
      cases res with
      | ok l2 =>
        simp only [Prod.mk.injEq, Except.ok.injEq] at h
        rw [directoryListing_cons, ← h.1, ih (bumpCount cnt i) (i + 1) l2 c2 h2]
      | error e => simp at h

theorem fetchRetry_ok_eq (fails : Nat → Nat → Bool)
    (pages : List (List RawContributor)) :
    ∀ (n : Nat) (cnt : Nat → Nat) (l : List RawContributor),
      fetchRetry fails pages n cnt = Except.ok l → l = directoryListing pages := by
  intro n
  induction n with
  | zero => intro cnt l h; simp [fetchRetry] at h
  | succ m ih =>
    intro cnt l h
    rw [fetchRetry] at h
    rcases h2 : fetchOnce fails cnt 0 pages with ⟨res, c2⟩
    rw [h2] at h
    cases res with
    | ok l2 =>
      simp only [Except.ok.injEq] at h
      rw [← h]
      exact fetchOnce_ok_eq fails pages cnt 0 l2 c2 h2
    | error e =>
      cases m with
      | zero => simp at h
      | succ m2 => exact ih c2 l h

theorem fetchOnce_no_failure (fails : Nat → Nat → Bool)
    (hf : ∀ i t, fails i t = false) :
    ∀ (pages : List (List RawContributor)) (cnt : Nat → Nat) (i : Nat),
      (fetchOnce fails cnt i pages).1 = Except.ok (directoryListing pages) := by
  intro pages
  induction pages with
  | nil => intro cnt i; rfl
  | cons page rest ih =>
    intro cnt i
    rw [fetchOnce]
    simp only [hf i (cnt i), Bool.false_eq_true, if_false]
    rcases h2 : fetchOnce fails (bumpCount cnt i) (i + 1) rest with ⟨res, c2⟩
    have hres := ih (bumpCount cnt i) (i + 1)
    rw [h2] at hres
    cases res with
    | ok l2 =>
      simp only at hres
      rw [directoryListing_cons]
      simp only [Except.ok.injEq] at hres
      simp [hres]
    | error e => simp at hres

theorem fetchOnce_stuck_page (fails : Nat → Nat → Bool) :
    ∀ (pages : List (List RawContributor)) (cnt : Nat → Nat) (i j : Nat),
      j < pages.length → (∀ t, fails (i + j) t = true) →
      (fetchOnce fails cnt i pages).1 = Except.error () := by
  intro pages
  induction pages with
  | nil => intro cnt i j hj _; simp at hj
  | cons page rest ih =>
    intro cnt i j hj hfail
    rw [fetchOnce]
    by_cases hf : fails i (cnt i) = true
    · simp [hf]
    · cases j with
      | zero =>
        exact absurd (by simpa using hfail (cnt i)) hf
      | succ j2 =>
        simp only [hf, Bool.false_eq_true, if_false]
        rcases h2 : fetchOnce fails (bumpCount cnt i) (i + 1) rest with ⟨res, c2⟩
        have hres := ih (bumpCount cnt i) (i + 1) j2
          (by simpa using Nat.lt_of_succ_lt_succ hj)
          (by intro t; have ht := hfail t; rwa [show i + (j2 + 1) = i + 1 + j2 by omega] at ht)
        rw [h2] at hres
        cases res with
        | ok l2 => simp at hres
        | error e => simp

theorem fetchRetry_first_attempt_ok (fails : Nat → Nat → Bool)
    (pages : List (List RawContributor)) (cnt : Nat → Nat) (n : Nat)
    (l : List RawContributor)
    (h : (fetchOnce fails cnt 0 pages).1 = Except.ok l) :
    fetchRetry fails pages (Nat.succ n) cnt = Except.ok l := by
  rw [fetchRetry]
  rcases h2 : fetchOnce fails cnt 0 pages with ⟨res, c2⟩
  rw [h2] at h
  cases res with
  | ok l2 => simp only at h; simp [h]
  | error e => simp at h

theorem fetchRetry_stuck (fails : Nat → Nat → Bool)
    (pages : List (List RawContributor))
    (hstuck : ∃ j, j < pages.length ∧ ∀ t, fails j t = true) :
    ∀ (n : Nat) (cnt : Nat → Nat), fetchRetry fails pages n cnt = Except.error () := by
  obtain ⟨j, hj, hfail⟩ := hstuck
  intro n
  induction n with
  | zero => intro cnt; rfl
  | succ m ih =>
    intro cnt
    rw [fetchRetry]
    rcases h2 : fetchOnce fails cnt 0 pages with ⟨res, c2⟩
    have hres := fetchOnce_stuck_page fails pages cnt 0 j hj (by simpa using hfail)
    rw [h2] at hres
    cases res with
    | ok l2 => simp at hres
    | error e =>
      cases m with
      | zero => rfl
      | succ m2 => exact ih c2

/-! ## Claim C1 — pagination completeness of the Directory Fetcher -/

/-- C1: for every directory split across pages, a successful fetch returns
the pages concatenated in request order with the anonymous entries (those
lacking a stable identifier) dropped: the length of the listing equals the sum of
the per-page entity counts minus the number of anonymous entries, order is
preserved from the source, and — the source identifiers being distinct — the
listing carries no duplicate identifiers. -/
theorem fetch_pagination_completeness (fails : Nat → Nat → Bool)
    (pages : List (List RawContributor)) (l : List RawContributor)
    (hok : get_all_contributor_avatars_for_repo fails pages = Except.ok l)
    (hids : (pages.flatten.filterMap RawContributor.login).Nodup) :
    l.length = (pages.map List.length).sum
        - pages.flatten.countP (fun c => c.login.isNone) ∧
    l = pages.flatten.filter (fun c => c.login.isSome) ∧
    (l.filterMap RawContributor.login).Nodup := by
  have hl : l = directoryListing pages :=
    fetchRetry_ok_eq fails pages 3 (fun _ => 0) l hok
  have hfilter : l = pages.flatten.filter (fun c => c.login.isSome) := by
    rw [hl, directoryListing_eq_filter]
  refine ⟨?_, hfilter, ?_⟩
  · rw [hfilter, ← List.length_flatten, ← List.countP_eq_length_filter]
    have hsplit := countP_login_split pages.flatten
    omega
  · rw [hfilter]
    exact hids.sublist ((List.filter_sublist _).filterMap _)

/-- Witness for C1: a two-page directory, the first page carrying one
anonymous entry, fetched with no transport failures. -/
theorem fetch_pagination_completeness_witness :
    ([c1Alice, c1Bob] : List RawContributor).length
        = (c1Pages.map List.length).sum
          - c1Pages.flatten.countP (fun c => c.login.isNone) ∧
    [c1Alice, c1Bob] = c1Pages.flatten.filter (fun c => c.login.isSome) ∧
    (([c1Alice, c1Bob] : List RawContributor).filterMap RawContributor.login).Nodup :=
  fetch_pagination_completeness (fun _ _ => false) c1Pages [c1Alice, c1Bob]
    rfl (by decide)

/-! ## Claim C2 — retry scope of the Directory Fetcher -/

/-- C2 counterexample: it is not true that the whole fetch fails only after
three failed attempts for a single page.  Under the schedule where every
page fails exactly on the first request ever made to it (and succeeds on
every later one), the three-page fetch fails as a whole although no page
ever accumulates three failed attempts — because the tenacity retry wraps
the entire multi-page loop, restarting it from the first page. -/
theorem fetch_per_page_retry_counterexample :
    ¬ (∀ (fails : Nat → Nat → Bool) (pages : List (List RawContributor)),
        get_all_contributor_avatars_for_repo fails pages = Except.error () →
        ∃ i, fails i 0 = true ∧ fails i 1 = true ∧ fails i 2 = true) := by
  intro hclaim
  obtain ⟨i, _, h1, _⟩ := hclaim c2Fails c2Pages rfl
  simp [c2Fails] at h1

/-- C2 (amended): the retry decoration wraps the entire fetch operation, not
individual page requests: the whole multi-page loop is re-run on a raised
failure, up to 3 total attempts.  If no request fails the fetch returns the
full listing on the first attempt; if the transport for some page always fails,
the whole fetch fails (RemoteUnavailable) after its attempt budget. -/
theorem fetch_whole_retry (fails : Nat → Nat → Bool)
    (pages : List (List RawContributor)) :
    ((∀ i t, fails i t = false) →
      get_all_contributor_avatars_for_repo fails pages
        = Except.ok (directoryListing pages)) ∧
    ((∃ j, j < pages.length ∧ ∀ t, fails j t = true) →
      get_all_contributor_avatars_for_repo fails pages = Except.error ()) := by
  constructor
  · intro hf
    exact fetchRetry_first_attempt_ok fails pages (fun _ => 0) 2
      (directoryListing pages) (fetchOnce_no_failure fails hf pages (fun _ => 0) 0)
  · intro hstuck
    exact fetchRetry_stuck fails pages hstuck 3 (fun _ => 0)

/-- Witness for C2 (amended): the three-page directory fetched once with no
failures and once with a permanently failing transport. -/
theorem fetch_whole_retry_witness :
    get_all_contributor_avatars_for_repo (fun _ _ => false) c2Pages
        = Except.ok (directoryListing c2Pages) ∧
    get_all_contributor_avatars_for_repo (fun _ _ => true) c2Pages
        = Except.error () :=
  ⟨(fetch_whole_retry (fun _ _ => false) c2Pages).1 (fun _ _ => rfl),
   (fetch_whole_retry (fun _ _ => true) c2Pages).2 ⟨0, by decide, fun _ => rfl⟩⟩

/-! ## Claim C7 — retry behaviour of the avatar download -/

/-- C7: the avatar download fails only after all 3 attempts fail (transport
error or non-success status both count, via `raise_for_status`), and a call
failing on attempts 1 and 2 but succeeding on attempt 3 returns the
successful response with no error. -/
theorem url_to_image_retry (world : Nat → ReqOutcome) :
    ((∀ k, k < 3 → singleRequest (world k) = Except.error ()) →
      url_to_image world = Except.error ()) ∧
    (∀ r, singleRequest (world 0) = Except.error () →
      singleRequest (world 1) = Except.error () →
      singleRequest (world 2) = Except.ok r →
      url_to_image world = Except.ok r) := by
  constructor
  · intro hf
    have h0 := hf 0 (by omega)
    have h1 := hf 1 (by omega)
    have h2 := hf 2 (by omega)
    simp [url_to_image, retryCall, retryGo, h0, h1, h2]
  · intro r h0 h1 h2
    simp [url_to_image, retryCall, retryGo, h0, h1, h2]

/-- Witness for C7: a download succeeding on its third attempt returns the
response; a download failing on all attempts surfaces the error. -/
theorem url_to_image_retry_witness :
    url_to_image c7World = Except.ok (200, "avatar-bytes") ∧
    url_to_image (fun _ => ReqOutcome.netError) = Except.error () :=
  ⟨(url_to_image_retry c7World).2 (200, "avatar-bytes") rfl rfl rfl,
   (url_to_image_retry (fun _ => ReqOutcome.netError)).1 (fun _ _ => rfl)⟩

/-! ## Claim C3 — layout determinism at columns_per_row = 3, target_size = 48 -/

/-- C3: with `columns_per_row = 3` and `target_size = 48`, placing 7 entities
yields column sequence 1,2,3,1,2,3,1, row sequence 1,1,1,2,2,2,3, x sequence
2,52,102,2,52,102,2 and y sequence 2,2,2,52,52,52,102. -/
theorem layout_seven_entities :
    (placements 48 3 7).map Placement.col = [1, 2, 3, 1, 2, 3, 1] ∧
    (placements 48 3 7).map Placement.row = [1, 1, 1, 2, 2, 2, 3] ∧
    (placements 48 3 7).map Placement.x = [2, 52, 102, 2, 52, 102, 2] ∧
    (placements 48 3 7).map Placement.y = [2, 2, 2, 52, 52, 52, 102] := by
  decide

/-! ## Claim C4 — canvas sizing -/

/-- C4: the declared canvas width is `2 + (target_size + 2) * columns_per_row`
— fixed, independent of the number of entities — and the declared canvas
height is `2 + (target_size + 2) * final_row_count`, with `final_row_count`
the row counter reached after the last placement; in particular 7 entities at
`columns_per_row = 3`, `target_size = 48` give width 152 and height 152. -/
theorem canvas_sizing (a c n : Nat) :
    svgWidth a c = 2 + (a + 2) * c ∧
    svgHeight a c n = 2 + (a + 2) * finalRow a c n ∧
    svgWidth 48 3 = 152 ∧ svgHeight 48 3 7 = 152 := by
  refine ⟨rfl, ?_, by decide, by decide⟩
  rw [svgHeight, Nat.add_comm 2 a]

/-! ## Claim C8 — zero-entity boundary -/

/-- C8: an empty directory listing yields a valid document with zero
fragments whose height is that of one empty row,
`2 + (target_size + 2) * 1`, and whose width is the usual fixed width. -/
theorem empty_listing_document (a c : Nat) :
    mainDocument a c [] = ⟨svgWidth a c, 2 + (a + 2) * 1, []⟩ := by
  rw [mainDocument]
  simp [buildFragments, initLayout, Nat.add_comm 2 a]

/-! ## Claim C9 — placements never start before the 2-pixel border -/

theorem layoutRun_coords (a c : Nat) :
    ∀ (n : Nat) (s : LayoutState), 2 ≤ s.x → 2 ≤ s.y →
      ∀ p ∈ (layoutRun a c n s).1, 2 ≤ p.x ∧ 2 ≤ p.y := by
  intro n
  induction n with
  | zero => intro s _ _ p hp; simp [layoutRun] at hp
  | succ m ih =>
    intro s hx hy p hp
    rw [layoutRun] at hp
    rcases List.mem_cons.mp hp with h | h
    · subst h; exact ⟨hx, hy⟩
    · by_cases hw : s.ncol ≥ c
      · exact ih _ (by simp [placeStep, hw]) (by simp [placeStep, hw]; omega) p h
      · exact ih _ (by simp [placeStep, hw]; omega) (by simp [placeStep, hw]; omega) p h

/-- C9: every placement the layout engine emits, for every avatar size,
column count and number of entities, has x ≥ 2 and y ≥ 2. -/
theorem placement_coords_ge_two (a c n : Nat) (p : Placement)
    (hp : p ∈ placements a c n) : 2 ≤ p.x ∧ 2 ≤ p.y :=
  layoutRun_coords a c n initLayout (by decide) (by decide) p hp

/-- Witness for C9: the first placement of a one-entity run. -/
theorem placement_coords_ge_two_witness :
    (⟨2, 2, 1, 1⟩ : Placement) ∈ placements 48 10 1 ∧
    2 ≤ (Placement.mk 2 2 1 1).x ∧ 2 ≤ (Placement.mk 2 2 1 1).y := by
  have h := placement_coords_ge_two 48 10 1 ⟨2, 2, 1, 1⟩ (by decide)
  exact ⟨by decide, h.1, h.2⟩

/-! ## Claim C5 — circular mask: per-pixel minimum with existing alpha -/

/-- C5: the masking step combines the downsampled circular mask with the
existing alpha channel by the per-pixel minimum: outside the circle the
result is transparent, already-transparent pixels stay transparent, opaque
pixels inside the circle stay opaque; for a solid-color opaque 48×48 square
the output alpha is 255 at the center pixel and 0 at the four corners. -/
theorem crop_to_circle_alpha_min (im : Img) (x y : Nat) :
    ((crop_to_circle im).pix x y).a
        = min (resizedMask im.width im.height x y) ((im.pix x y).a) ∧
    (resizedMask im.width im.height x y = 0 →
      ((crop_to_circle im).pix x y).a = 0) ∧
    ((im.pix x y).a = 0 → ((crop_to_circle im).pix x y).a = 0) ∧
    (resizedMask im.width im.height x y = 255 → (im.pix x y).a = 255 →
      ((crop_to_circle im).pix x y).a = 255) ∧
    ((crop_to_circle (solidSquare 48)).pix 24 24).a = 255 ∧
    ((crop_to_circle (solidSquare 48)).pix 0 0).a = 0 ∧
    ((crop_to_circle (solidSquare 48)).pix 47 0).a = 0 ∧
    ((crop_to_circle (solidSquare 48)).pix 0 47).a = 0 ∧
    ((crop_to_circle (solidSquare 48)).pix 47 47).a = 0 := by
  refine ⟨rfl, ?_, ?_, ?_, by decide, by decide, by decide, by decide, by decide⟩
  · intro h; simp [crop_to_circle, putalpha, darker, alphaChannel, h]
  · intro h; simp [crop_to_circle, putalpha, darker, alphaChannel, h]
  · intro h1 h2; simp [crop_to_circle, putalpha, darker, alphaChannel, h1, h2]

/-- Witness for C5: an already fully transparent pixel stays transparent. -/
theorem crop_to_circle_alpha_min_witness :
    (clearImg.pix 1 1).a = 0 ∧ ((crop_to_circle clearImg).pix 1 1).a = 0 :=
  ⟨rfl, (crop_to_circle_alpha_min clearImg 1 1).2.2.1 rfl⟩

/-! ## Claim C6 — transformed avatar dimensions -/

/-- C6 counterexample: the pixel buffer of the transformed avatar does not take
the configured avatar size — a 100×100 source transformed with
`target_size = 48` keeps its native 100×100 buffer. -/
theorem transform_not_target_size :
    ¬ ((transform (solidSquare 100) 48).width = 48 ∧
       (transform (solidSquare 100) 48).height = 48) := by
  intro h
  exact absurd h.1 (by decide)

/-- C6 (amended): the transformed avatar keeps the native dimensions of the
decoded source image, whatever the configured avatar size; the size argument
does not influence the pixel buffer at all. -/
theorem transform_keeps_native_size (im : Img) (t t2 : Nat) :
    (transform im t).width = im.width ∧
    (transform im t).height = im.height ∧
    transform im t = transform im t2 :=
  ⟨rfl, rfl, rfl⟩

/-! ## Claim C10 — the mask transform touches only the alpha channel -/

/-- C10: `crop_to_circle` preserves the image dimensions and the R, G and B
values of every pixel; only the per-pixel alpha is replaced. -/
theorem crop_to_circle_frame (im : Img) (x y : Nat) :
    (crop_to_circle im).width = im.width ∧
    (crop_to_circle im).height = im.height ∧
    ((crop_to_circle im).pix x y).r = (im.pix x y).r ∧
    ((crop_to_circle im).pix x y).g = (im.pix x y).g ∧
    ((crop_to_circle im).pix x y).b = (im.pix x y).b :=
  ⟨rfl, rfl, rfl, rfl, rfl⟩

end Gallery
